import Mathlib

/-!
Verification development for the tsx-trader Trade Execution & Risk Management
Engine (backend/app/services/trading/risk_manager.py, trade_executor.py,
backend/app/tasks/trading_tasks.py, backend/app/services/questrade/client.py).

Shallow embedding conventions: Python floats become ℚ, Python ints become ℤ,
nullable columns become Option, datetimes become an abstract ℕ clock value
passed in as `now`, SQLAlchemy queries become explicit fields of an input
record, and raised RiskValidationError exceptions become `Except RiskError`.
-/

namespace TsxTrader

/-- Embeds OrderSide from models/trade.py. -/
inductive OrderSide
| buy
| sell
deriving DecidableEq

/-- Embeds OrderType from models/trade.py. -/
inductive OrderType
| market
| limit
| stop
| stop_limit
deriving DecidableEq

/-- Embeds OrderStatus from models/trade.py (PARTIAL is rendered partFilled). -/
inductive OrderStatus
| pending
| submitted
| partFilled
| filled
| cancelled
| rejected
deriving DecidableEq

/-- Embeds UserSettings (models/user.py): the per-account risk settings read by
RiskManager and TradeExecutor. -/
structure UserSettings where
  position_size_pct : ℚ
  stop_loss_pct : ℚ
  daily_loss_limit_pct : ℚ
  max_open_positions : ℕ
  min_cash_reserve_pct : ℚ
  min_risk_reward_ratio : ℚ
  paper_trading_enabled : Bool
  auto_trading_enabled : Bool
  require_stop_loss : Bool
  circuit_breaker_enabled : Bool
deriving DecidableEq

/-- Embeds the fields of PortfolioSnapshot (models/portfolio.py) that
RiskManager reads. -/
structure PortfolioSnapshot where
  total_value : ℚ
  cash_balance : ℚ
  daily_pnl : ℚ
  daily_pnl_pct : ℚ
deriving DecidableEq

/-- Embeds Position (models/trade.py). Timestamps are abstract ℕ ticks. -/
structure Position where
  quantity : ℤ
  average_cost : ℚ
  current_price : Option ℚ
  market_value : Option ℚ
  unrealized_pnl : ℚ
  unrealized_pnl_pct : ℚ
  realized_pnl : ℚ
  stop_loss_price : Option ℚ
  take_profit_price : Option ℚ
  is_open : Bool
  opened_at : Option ℕ
  closed_at : Option ℕ
deriving DecidableEq

/-- The database state a RiskManager instance reads through its queries:
the latest portfolio snapshot (`_get_portfolio_value` / `_get_cash_balance`),
the snapshot dated today (`_get_daily_pnl`), the open-position count
(`_get_open_positions_count`), and the open position for the requested
symbol (the query inside `validate_position_size`). -/
structure RiskContext where
  settings : UserSettings
  latest_snapshot : Option PortfolioSnapshot
  today_snapshot : Option PortfolioSnapshot
  open_positions_count : ℕ
  open_position : Option Position
deriving DecidableEq

/-- The distinct RiskValidationError reasons raised by risk_manager.py, one
constructor per distinct message. -/
inductive RiskError
| circuitBreaker
| maxPositions
| noOpenPosition
| insufficientShares
| portfolioValueZero
| positionSizeExceeded
| insufficientCash
| stopLossRequired
| stopLossTooTight
| stopLossTooWide
| riskZero
| riskRewardTooLow
deriving DecidableEq

/-- The metrics dictionary returned by RiskManager.validate_trade. -/
structure TradeMetrics where
  trade_value : ℚ
  position_size_pct : ℚ
  risk_amount : ℚ
  portfolio_value : ℚ
deriving DecidableEq

/-- Embeds RiskManager._get_portfolio_value: latest snapshot's total_value,
0.0 when no snapshot exists. -/
def get_portfolio_value (ctx : RiskContext) : ℚ :=
  match ctx.latest_snapshot with
  | some s => s.total_value
  | none => 0

/-- Embeds RiskManager._get_cash_balance: latest snapshot's cash_balance,
0.0 when no snapshot exists. -/
def get_cash_balance (ctx : RiskContext) : ℚ :=
  match ctx.latest_snapshot with
  | some s => s.cash_balance
  | none => 0

/-- Embeds RiskManager._get_daily_pnl: today's snapshot's (daily_pnl,
daily_pnl_pct), (0.0, 0.0) when today has no snapshot. -/
def get_daily_pnl (ctx : RiskContext) : ℚ × ℚ :=
  match ctx.today_snapshot with
  | some s => (s.daily_pnl, s.daily_pnl_pct)
  | none => (0, 0)

/-- Embeds RiskManager.check_circuit_breaker (risk_manager.py lines 202-218).
Note that it takes no order side: it fires for buys and sells alike. -/
def check_circuit_breaker (ctx : RiskContext) : Except RiskError Unit :=
  if ctx.settings.circuit_breaker_enabled = false then .ok ()
  else if (get_daily_pnl ctx).2 < -ctx.settings.daily_loss_limit_pct then
    .error .circuitBreaker
  else .ok ()

/-- Embeds RiskManager.check_max_positions (lines 220-234). -/
def check_max_positions (ctx : RiskContext) (side : OrderSide) : Except RiskError Unit :=
  match side with
  | .sell => .ok ()
  | .buy =>
    if ctx.settings.max_open_positions ≤ ctx.open_positions_count then
      .error .maxPositions
    else .ok ()

/-- Embeds RiskManager.validate_position_size (lines 78-127). For sells it
checks the open position for the symbol; for buys it checks sizing against
the portfolio value. -/
def validate_position_size (ctx : RiskContext) (quantity : ℤ) (price : ℚ)
    (side : OrderSide) : Except RiskError Unit :=
  match side with
  | .sell =>
    match ctx.open_position with
    | none => .error .noOpenPosition
    | some p =>
      if p.quantity < quantity then .error .insufficientShares else .ok ()
  | .buy =>
    let portfolio_value := get_portfolio_value ctx
    if portfolio_value = 0 then .error .portfolioValueZero
    else
      let trade_value := (quantity : ℚ) * price
      let position_size_pct := trade_value / portfolio_value * 100
      if position_size_pct > ctx.settings.position_size_pct then
        .error .positionSizeExceeded
      else .ok ()

/-- Embeds RiskManager.validate_cash_available (lines 129-151). -/
def validate_cash_available (ctx : RiskContext) (quantity : ℤ) (price : ℚ)
    (side : OrderSide) : Except RiskError Unit :=
  match side with
  | .sell => .ok ()
  | .buy =>
    let trade_value := (quantity : ℚ) * price
    let cash_balance := get_cash_balance ctx
    let min_cash_reserve := get_portfolio_value ctx * (ctx.settings.min_cash_reserve_pct / 100)
    let available_cash := cash_balance - min_cash_reserve
    if trade_value > available_cash then .error .insufficientCash else .ok ()

/-- Embeds RiskManager.validate_stop_loss (lines 153-172). It takes no order
side: when require_stop_loss is set it demands a stop-loss on every request. -/
def validate_stop_loss (settings : UserSettings) (stop_loss_price : Option ℚ)
    (price : ℚ) : Except RiskError Unit :=
  if settings.require_stop_loss = false then .ok ()
  else
    match stop_loss_price with
    | none => .error .stopLossRequired
    | some sl =>
      let stop_loss_pct := |(sl - price) / price| * 100
      if stop_loss_pct < 1 then .error .stopLossTooTight
      else if stop_loss_pct > 20 then .error .stopLossTooWide
      else .ok ()

/-- Embeds RiskManager.validate_risk_reward (lines 174-200). -/
def validate_risk_reward (settings : UserSettings) (entry_price : ℚ)
    (stop_loss_price take_profit_price : Option ℚ) : Except RiskError Unit :=
  match stop_loss_price, take_profit_price with
  | some sl, some tp =>
    let risk := |entry_price - sl|
    let reward := |tp - entry_price|
    if risk = 0 then .error .riskZero
    else if reward / risk < settings.min_risk_reward_ratio then
      .error .riskRewardTooLow
    else .ok ()
  | _, _ => .ok ()

/-- Embeds RiskManager.validate_trade (lines 236-284): runs the checks in the
source's fixed order, first failure wins, then computes the metrics dict.
The `if sl = 0` guard mirrors Python truthiness in `if stop_loss_price:`. -/
def validate_trade (ctx : RiskContext) (side : OrderSide) (quantity : ℤ)
    (price : ℚ) (stop_loss_price take_profit_price : Option ℚ) :
    Except RiskError TradeMetrics :=
  match check_circuit_breaker ctx with
  | .error e => .error e
  | .ok _ =>
  match check_max_positions ctx side with
  | .error e => .error e
  | .ok _ =>
  match validate_position_size ctx quantity price side with
  | .error e => .error e
  | .ok _ =>
  match validate_cash_available ctx quantity price side with
  | .error e => .error e
  | .ok _ =>
  match validate_stop_loss ctx.settings stop_loss_price price with
  | .error e => .error e
  | .ok _ =>
  match validate_risk_reward ctx.settings price stop_loss_price take_profit_price with
  | .error e => .error e
  | .ok _ =>
    let portfolio_value := get_portfolio_value ctx
    let trade_value := (quantity : ℚ) * price
    .ok
      { trade_value := trade_value
        position_size_pct :=
          if 0 < portfolio_value then trade_value / portfolio_value * 100 else 0
        risk_amount :=
          match stop_loss_price with
          | some sl => if sl = 0 then 0 else |price - sl| * (quantity : ℚ)
          | none => 0
        portfolio_value := portfolio_value }

deriving instance DecidableEq for Except

/-- True when a validation result is an acceptance. -/
def riskOk {α : Type} : Except RiskError α → Bool
  | .ok _ => true
  | .error _ => false

/-- Embeds TradeExecutor._update_position_on_buy (trade_executor.py lines
72-96). Division is ℚ division; for the positive quantities reached from the
source's call sites the divisor position.quantity + quantity is nonzero. -/
def update_position_on_buy (p : Position) (quantity : ℤ) (price : ℚ)
    (now : ℕ) : Position :=
  let p1 :=
    if p.quantity = 0 then
      { p with quantity := quantity, average_cost := price,
               is_open := true, opened_at := some now }
    else
      let total_cost := (p.quantity : ℚ) * p.average_cost + (quantity : ℚ) * price
      { p with quantity := p.quantity + quantity,
               average_cost := total_cost / ((p.quantity + quantity : ℤ) : ℚ) }
  { p1 with current_price := some price,
            market_value := some ((p1.quantity : ℚ) * price),
            unrealized_pnl := (price - p1.average_cost) * (p1.quantity : ℚ),
            unrealized_pnl_pct :=
              if 0 < p1.average_cost then
                (price - p1.average_cost) / p1.average_cost * 100
              else 0 }

/-- Embeds TradeExecutor._update_position_on_sell (lines 98-127). -/
def update_position_on_sell (p : Position) (quantity : ℤ) (price : ℚ)
    (now : ℕ) : Position :=
  let realized := (price - p.average_cost) * (quantity : ℚ)
  let p1 := { p with realized_pnl := p.realized_pnl + realized,
                     quantity := p.quantity - quantity }
  if p1.quantity = 0 then
    { p1 with is_open := false, closed_at := some now,
              market_value := some 0, unrealized_pnl := 0,
              unrealized_pnl_pct := 0 }
  else
    { p1 with current_price := some price,
              market_value := some ((p1.quantity : ℚ) * price),
              unrealized_pnl := (price - p.average_cost) * (p1.quantity : ℚ),
              unrealized_pnl_pct :=
                if 0 < p.average_cost then
                  (price - p.average_cost) / p.average_cost * 100
                else 0 }

/-- Applies a sequence of buy fills (quantity, price) left to right through
_update_position_on_buy. -/
def apply_buys (p : Position) (fills : List (ℤ × ℚ)) (now : ℕ) : Position :=
  fills.foldl (fun acc f => update_position_on_buy acc f.1 f.2 now) p

/-- Total quantity of a fill sequence. -/
def sum_qty (fills : List (ℤ × ℚ)) : ℤ :=
  fills.foldr (fun f a => f.1 + a) 0

/-- Total cost Σ qty_i × price_i of a fill sequence. -/
def sum_cost (fills : List (ℤ × ℚ)) : ℚ :=
  fills.foldr (fun f a => (f.1 : ℚ) * f.2 + a) 0

/-- Embeds TradeOrder (models/trade.py), restricted to the fields the engine
reads or writes. -/
structure TradeOrder where
  id : ℕ
  order_type : OrderType
  side : OrderSide
  quantity : ℤ
  limit_price : Option ℚ
  stop_price : Option ℚ
  stop_loss_price : Option ℚ
  take_profit_price : Option ℚ
  status : OrderStatus
  broker_order_id : Option ℕ
  filled_quantity : ℤ
  average_fill_price : Option ℚ
  submitted_at : Option ℕ
  filled_at : Option ℕ
  is_paper_trade : Bool
deriving DecidableEq

/-- Embeds TradeExecution (models/trade.py). -/
structure TradeExecution where
  order_id : ℕ
  quantity : ℤ
  price : ℚ
  commission : ℚ
  executed_at : ℕ
deriving DecidableEq

/-- Result of executing a paper trade: the execution records added, the
updated order and the updated position. -/
structure PaperTradeResult where
  executions : List TradeExecution
  order : TradeOrder
  position : Position
deriving DecidableEq

/-- Embeds TradeExecutor.execute_paper_trade (lines 129-170): records a
single zero-commission execution for the full order quantity, marks the order
FILLED, and applies the fill to the position. The `≠ 0` guards mirror Python
truthiness in `if order.stop_loss_price:` / `if order.take_profit_price:`. -/
def execute_paper_trade (order : TradeOrder) (position : Position)
    (price : ℚ) (now : ℕ) : PaperTradeResult :=
  let execution : TradeExecution :=
    { order_id := order.id, quantity := order.quantity, price := price,
      commission := 0, executed_at := now }
  let order1 :=
    { order with filled_quantity := order.quantity,
                 average_fill_price := some price,
                 status := .filled, filled_at := some now }
  let position1 :=
    match order.side with
    | .buy =>
      let pb := update_position_on_buy position order.quantity price now
      let pb :=
        match order.stop_loss_price with
        | some sl => if sl ≠ 0 then { pb with stop_loss_price := some sl } else pb
        | none => pb
      let pb :=
        match order.take_profit_price with
        | some tp => if tp ≠ 0 then { pb with take_profit_price := some tp } else pb
        | none => pb
      pb
    | .sell => update_position_on_sell position order.quantity price now
  { executions := [execution], order := order1, position := position1 }

/-- Sum of execution quantities for an order. -/
def exec_qty_sum (l : List TradeExecution) : ℤ :=
  l.foldr (fun e a => e.quantity + a) 0

/-- Sum of quantity × price over an order's executions. -/
def exec_cost_sum (l : List TradeExecution) : ℚ :=
  l.foldr (fun e a => (e.quantity : ℚ) * e.price + a) 0

/-- Outcome of the broker call made inside execute_live_trade: the broker
accepted and returned an order id, the broker explicitly rejected the order
(an HTTP error raised by the client), or the call failed ambiguously (a
transport error or timeout raised before any broker answer was seen). -/
inductive LiveOutcome
| accepted (brokerId : ℕ)
| explicitReject
| transportFailure
deriving DecidableEq

/-- Embeds TradeExecutor.execute_live_trade (lines 172-230). On success the
order becomes SUBMITTED with the broker id stored; the source's
`except Exception` block handles every raised error identically — explicit
rejection and ambiguous transport failure alike set status REJECTED and
re-raise. The Bool is true when the exception is re-raised to the caller. -/
def execute_live_trade (order : TradeOrder) (outcome : LiveOutcome)
    (now : ℕ) : TradeOrder × Bool :=
  match outcome with
  | .accepted bid =>
    ({ order with broker_order_id := some bid, status := .submitted,
                  submitted_at := some now }, false)
  | .explicitReject => ({ order with status := .rejected }, true)
  | .transportFailure => ({ order with status := .rejected }, true)

/-- HTTP method passed to QuestradeClient._make_request. -/
inductive HttpMethod
| get
| post
| delete
deriving DecidableEq

/-- Errors a _make_request call can surface to its caller. -/
inductive ClientError
| unsupportedMethod
| httpFailure
deriving DecidableEq

/-- Embeds the control flow of QuestradeClient._make_request
(questrade/client.py lines 26-55) as seen by its callers: GET and POST are
issued over the network (netOk abstracts the round trip, including the one
401 refresh-and-retry); any other method hits
`raise ValueError(f"Unsupported method: ...")` before any request is sent,
and that ValueError is not caught by the HTTPError handler, so it
propagates. -/
def make_request (method : HttpMethod) (netOk : Bool) : Except ClientError Unit :=
  match method with
  | .get => if netOk then .ok () else .error .httpFailure
  | .post => if netOk then .ok () else .error .httpFailure
  | .delete => .error .unsupportedMethod

/-- Embeds QuestradeClient.cancel_order (questrade/client.py lines 174-180):
calls _make_request with method DELETE and returns True on success, False on
any exception. Because _make_request supports only GET and POST, the DELETE
always raises ValueError, so no broker request is ever sent. The local order
record is passed through so the theorems can speak about it; the source
never reads or mutates it and consults no local status. -/
def cancel_order (order : TradeOrder) (netOk : Bool) : Bool × TradeOrder :=
  match make_request HttpMethod.delete netOk with
  | .ok _ => (true, order)
  | .error _ => (false, order)

/-- One row of the monitor_stop_losses scan input: a position, whether its
user is active (the query joins User and filters is_active), and the result
of the AlphaVantage price lookup (none models both a lookup failure and a
raised exception, which the source logs and skips). -/
structure MonitorEntry where
  position : Position
  user_is_active : Bool
  current_price : Option ℚ
deriving DecidableEq

/-- The arguments of the executor.place_order call synthesized by
monitor_stop_losses; stop_loss_price stays none because the task passes no
stop-loss for the exit order. -/
structure SellOrderRequest where
  quantity : ℤ
  order_type : OrderType
  side : OrderSide
  stop_loss_price : Option ℚ
deriving DecidableEq

/-- The Market-type Sell request for the full open quantity that
monitor_stop_losses submits when a trigger fires. -/
def monitor_sell_request (p : Position) : SellOrderRequest :=
  { quantity := p.quantity, order_type := .market, side := .sell,
    stop_loss_price := none }

/-- Embeds the query filter of monitor_stop_losses (trading_tasks.py lines
110-120): open positions whose stop_loss_price is not NULL, for active
users. Positions carrying only a take_profit_price do not pass it. -/
def monitor_scan_filter (e : MonitorEntry) : Bool :=
  e.position.is_open && e.position.stop_loss_price.isSome && e.user_is_active

/-- Embeds the trigger conditions in the loop body of monitor_stop_losses
(lines 128-198): skip when the price lookup fails or returns a falsy 0
(`if not current_price: continue`), trigger on current_price ≤
stop_loss_price, else trigger on a truthy take_profit_price with
current_price ≥ it. -/
def monitor_triggered (e : MonitorEntry) : Bool :=
  match e.current_price with
  | none => false
  | some price =>
    if price = 0 then false
    else
      match e.position.stop_loss_price with
      | none => false
      | some sl =>
        if price ≤ sl then true
        else
          match e.position.take_profit_price with
          | none => false
          | some tp => if tp ≠ 0 ∧ tp ≤ price then true else false

/-- The loop body of monitor_stop_losses for one scanned position: both the
stop-loss and the take-profit branch submit the same Market Sell request for
the full open quantity (only the logged reasoning string differs). -/
def monitor_check (e : MonitorEntry) : Option SellOrderRequest :=
  if monitor_triggered e then some (monitor_sell_request e.position) else none

/-- Embeds one monitor_stop_losses pass (lines 103-210): the query filter
followed by the per-position loop, returning the sell requests submitted to
place_order. -/
def monitor_stop_losses (entries : List MonitorEntry) : List SellOrderRequest :=
  (entries.filter monitor_scan_filter).filterMap monitor_check

/-- Concrete UserSettings row with the column defaults of models/user.py. -/
def baseSettings : UserSettings :=
  { position_size_pct := 20, stop_loss_pct := 5, daily_loss_limit_pct := 5,
    max_open_positions := 10, min_cash_reserve_pct := 10,
    min_risk_reward_ratio := 2, paper_trading_enabled := true,
    auto_trading_enabled := false, require_stop_loss := true,
    circuit_breaker_enabled := true }

/-- Snapshot of a portfolio down 6% on the day. -/
def snapDown6 : PortfolioSnapshot :=
  { total_value := 94000, cash_balance := 50000,
    daily_pnl := -6000, daily_pnl_pct := -6 }

/-- Snapshot of a portfolio flat on the day. -/
def snapFlat : PortfolioSnapshot :=
  { total_value := 100000, cash_balance := 50000,
    daily_pnl := 0, daily_pnl_pct := 0 }

/-- Risk context whose daily loss (-6%) exceeds the 5% limit while the
circuit breaker is enabled. -/
def ctxBreakerTripped : RiskContext :=
  { settings := baseSettings, latest_snapshot := some snapDown6,
    today_snapshot := some snapDown6, open_positions_count := 1,
    open_position := none }

/-- Open position holding 3 shares at an average cost of 10. -/
def posThreeShares : Position :=
  { quantity := 3, average_cost := 10, current_price := some 10,
    market_value := some 30, unrealized_pnl := 0, unrealized_pnl_pct := 0,
    realized_pnl := 0, stop_loss_price := none, take_profit_price := none,
    is_open := true, opened_at := some 0, closed_at := none }

/-- A freshly created, never-opened position (quantity 0), as built by
TradeExecutor._get_or_create_position. -/
def posFlat : Position :=
  { quantity := 0, average_cost := 0, current_price := none,
    market_value := none, unrealized_pnl := 0, unrealized_pnl_pct := 0,
    realized_pnl := 0, stop_loss_price := none, take_profit_price := none,
    is_open := false, opened_at := none, closed_at := none }

/-- Two buy fills: 100 shares at 100, then 50 shares at 130. -/
def demoBuyFills : List (ℤ × ℚ) := [(100, 100), (50, 130)]

/-- Open position carrying only a take-profit price (no stop loss). -/
def posTakeProfitOnly : Position :=
  { quantity := 10, average_cost := 40, current_price := some 40,
    market_value := some 400, unrealized_pnl := 0, unrealized_pnl_pct := 0,
    realized_pnl := 0, stop_loss_price := none, take_profit_price := some 50,
    is_open := true, opened_at := some 0, closed_at := none }

/-- Monitor row for posTakeProfitOnly with the price above the target. -/
def entryTakeProfitOnly : MonitorEntry :=
  { position := posTakeProfitOnly, user_is_active := true,
    current_price := some 60 }

/-- Open position with a stop loss at 45. -/
def posWithStop : Position :=
  { quantity := 8, average_cost := 50, current_price := some 50,
    market_value := some 400, unrealized_pnl := 0, unrealized_pnl_pct := 0,
    realized_pnl := 0, stop_loss_price := some 45, take_profit_price := none,
    is_open := true, opened_at := some 0, closed_at := none }

/-- Monitor row for posWithStop with the price below the stop. -/
def entryStopTripped : MonitorEntry :=
  { position := posWithStop, user_is_active := true, current_price := some 40 }

/-- Open position holding 100 shares at an average cost of 100. -/
def posHundredAt100 : Position :=
  { quantity := 100, average_cost := 100, current_price := some 100,
    market_value := some 10000, unrealized_pnl := 0, unrealized_pnl_pct := 0,
    realized_pnl := 0, stop_loss_price := none, take_profit_price := none,
    is_open := true, opened_at := some 0, closed_at := none }

/-- A pending live market order for 10 shares. -/
def orderPendingLive : TradeOrder :=
  { id := 1, order_type := .market, side := .buy, quantity := 10,
    limit_price := none, stop_price := none, stop_loss_price := some 95,
    take_profit_price := none, status := .pending, broker_order_id := none,
    filled_quantity := 0, average_fill_price := none, submitted_at := none,
    filled_at := none, is_paper_trade := false }

/-- A pending paper buy order for 100 shares. -/
def orderPendingPaper : TradeOrder :=
  { id := 2, order_type := .market, side := .buy, quantity := 100,
    limit_price := none, stop_price := none, stop_loss_price := some 95,
    take_profit_price := none, status := .pending, broker_order_id := none,
    filled_quantity := 0, average_fill_price := none, submitted_at := none,
    filled_at := none, is_paper_trade := true }

/-- Risk context with no portfolio snapshot at all and the open-position
limit already reached (10 of 10). -/
def ctxNoSnapshotFull : RiskContext :=
  { settings := baseSettings, latest_snapshot := none,
    today_snapshot := none, open_positions_count := 10,
    open_position := none }

/-- Risk context with no portfolio snapshot and room for more positions. -/
def ctxNoSnapshotRoom : RiskContext :=
  { settings := baseSettings, latest_snapshot := none,
    today_snapshot := none, open_positions_count := 0,
    open_position := none }

/-- Risk context of a healthy account whose settings require a stop loss. -/
def ctxRequireStop : RiskContext :=
  { settings := baseSettings, latest_snapshot := some snapFlat,
    today_snapshot := some snapFlat, open_positions_count := 1,
    open_position := some posHundredAt100 }

/-- An already filled order. -/
def orderFilled : TradeOrder :=
  { id := 3, order_type := .market, side := .buy, quantity := 10,
    limit_price := none, stop_price := none, stop_loss_price := none,
    take_profit_price := none, status := .filled, broker_order_id := some 77,
    filled_quantity := 10, average_fill_price := some 50,
    submitted_at := some 0, filled_at := some 1, is_paper_trade := false }

/-! Position-ledger lemmas and theorems. -/

lemma sum_qty_cons (f : ℤ × ℚ) (rest : List (ℤ × ℚ)) :
    sum_qty (f :: rest) = f.1 + sum_qty rest := rfl

lemma sum_cost_cons (f : ℤ × ℚ) (rest : List (ℤ × ℚ)) :
    sum_cost (f :: rest) = (f.1 : ℚ) * f.2 + sum_cost rest := rfl

lemma sum_qty_nonneg (fills : List (ℤ × ℚ)) (h : ∀ f ∈ fills, 0 < f.1) :
    0 ≤ sum_qty fills := by
  induction fills with
  | nil => simp [sum_qty]
  | cons f rest ih =>
    have h1 := h f (List.mem_cons_self f rest)
    have h2 := ih (fun g hg => h g (List.mem_cons_of_mem f hg))
    rw [sum_qty_cons]
    omega

lemma update_buy_quantity_zero (p : Position) (q : ℤ) (pr : ℚ) (now : ℕ)
    (h : p.quantity = 0) :
    (update_position_on_buy p q pr now).quantity = q ∧
    (update_position_on_buy p q pr now).average_cost = pr := by
  simp [update_position_on_buy, h]

lemma update_buy_quantity_ne (p : Position) (q : ℤ) (pr : ℚ) (now : ℕ)
    (h : p.quantity ≠ 0) :
    (update_position_on_buy p q pr now).quantity = p.quantity + q ∧
    (update_position_on_buy p q pr now).average_cost =
      ((p.quantity : ℚ) * p.average_cost + (q : ℚ) * pr)
        / ((p.quantity + q : ℤ) : ℚ) := by
  simp [update_position_on_buy, h]

lemma apply_buys_cons (p : Position) (f : ℤ × ℚ) (rest : List (ℤ × ℚ))
    (now : ℕ) :
    apply_buys p (f :: rest) now
      = apply_buys (update_position_on_buy p f.1 f.2 now) rest now := rfl

lemma apply_buys_from_open (fills : List (ℤ × ℚ)) :
    ∀ (p : Position) (now : ℕ), 0 < p.quantity → (∀ f ∈ fills, 0 < f.1) →
    (apply_buys p fills now).quantity = p.quantity + sum_qty fills ∧
    (apply_buys p fills now).average_cost =
      ((p.quantity : ℚ) * p.average_cost + sum_cost fills)
        / ((p.quantity + sum_qty fills : ℤ) : ℚ) := by
  induction fills with
  | nil =>
    intro p now hq _
    have hne : ((p.quantity : ℤ) : ℚ) ≠ 0 := by exact_mod_cast hq.ne'
    constructor
    · simp [apply_buys, sum_qty]
    · show p.average_cost = ((p.quantity : ℚ) * p.average_cost + sum_cost [])
        / ((p.quantity + sum_qty [] : ℤ) : ℚ)
      simp only [sum_cost, sum_qty, List.foldr_nil, add_zero]
      field_simp
  | cons f rest ih =>
    intro p now hq hall
    have hf : 0 < f.1 := hall f (List.mem_cons_self f rest)
    have hall2 : ∀ g ∈ rest, 0 < g.1 := fun g hg => hall g (List.mem_cons_of_mem f hg)
    obtain ⟨hq1, hac1⟩ := update_buy_quantity_ne p f.1 f.2 now hq.ne'
    have hqpos : 0 < (update_position_on_buy p f.1 f.2 now).quantity := by
      rw [hq1]; exact add_pos hq hf
    obtain ⟨ihq, ihac⟩ := ih (update_position_on_buy p f.1 f.2 now) now hqpos hall2
    constructor
    · rw [apply_buys_cons, ihq, hq1, sum_qty_cons]; ring
    · rw [apply_buys_cons, ihac, hq1, hac1, sum_qty_cons, sum_cost_cons]
      have d1 : ((p.quantity + f.1 : ℤ) : ℚ) ≠ 0 := by
        have h0 : (0 : ℤ) < p.quantity + f.1 := add_pos hq hf
        exact_mod_cast h0.ne'
      rw [mul_comm (((p.quantity + f.1 : ℤ) : ℚ)) _, div_mul_cancel₀ _ d1]
      congr 1
      · ring
      · push_cast
        ring

/-- C3: applying any nonempty sequence of positive buy fills to an initially
empty position through _update_position_on_buy yields quantity = Σ qty_i and
average_cost = Σ(qty_i × price_i) / Σ qty_i, in exact arithmetic. -/
theorem buy_fills_averaging (p : Position) (now : ℕ) (fills : List (ℤ × ℚ))
    (h0 : p.quantity = 0) (hne : fills ≠ [])
    (hall : ∀ f ∈ fills, 0 < f.1) :
    (apply_buys p fills now).quantity = sum_qty fills ∧
    (apply_buys p fills now).average_cost
      = sum_cost fills / ((sum_qty fills : ℤ) : ℚ) := by
  cases fills with
  | nil => exact absurd rfl hne
  | cons f rest =>
    have hf : 0 < f.1 := hall f (List.mem_cons_self f rest)
    have hall2 : ∀ g ∈ rest, 0 < g.1 := fun g hg => hall g (List.mem_cons_of_mem f hg)
    obtain ⟨hq1, hac1⟩ := update_buy_quantity_zero p f.1 f.2 now h0
    have hqpos : 0 < (update_position_on_buy p f.1 f.2 now).quantity := by
      rw [hq1]; exact hf
    obtain ⟨ihq, ihac⟩ :=
      apply_buys_from_open rest (update_position_on_buy p f.1 f.2 now) now hqpos hall2
    constructor
    · rw [apply_buys_cons, ihq, hq1, sum_qty_cons]
    · rw [apply_buys_cons, ihac, hq1, hac1, sum_qty_cons, sum_cost_cons]

/-- Witness for buy_fills_averaging: buying 100 @ 100 then 50 @ 130 from an
empty position. -/
theorem buy_fills_averaging_witness :
    (apply_buys posFlat demoBuyFills 0).quantity = sum_qty demoBuyFills ∧
    (apply_buys posFlat demoBuyFills 0).average_cost
      = sum_cost demoBuyFills / ((sum_qty demoBuyFills : ℤ) : ℚ) :=
  buy_fills_averaging posFlat 0 demoBuyFills rfl (by decide) (by decide)

/-- C5 (amended use of the embedding only): a partial sell through
_update_position_on_sell leaves average_cost unchanged, adds
(price − average_cost) × qty to realized_pnl, lowers quantity by qty
and keeps is_open true. -/
theorem partial_sell_frame (p : Position) (qty : ℤ) (price : ℚ) (now : ℕ)
    (h1 : 0 < qty) (h2 : qty < p.quantity) (h3 : p.is_open = true) :
    (update_position_on_sell p qty price now).average_cost = p.average_cost ∧
    (update_position_on_sell p qty price now).realized_pnl
      = p.realized_pnl + (price - p.average_cost) * (qty : ℚ) ∧
    (update_position_on_sell p qty price now).quantity = p.quantity - qty ∧
    (update_position_on_sell p qty price now).is_open = true := by
  have hne : p.quantity - qty ≠ 0 := by omega
  refine ⟨?_, ?_, ?_, ?_⟩ <;> simp [update_position_on_sell, hne, h3]

/-- Witness for partial_sell_frame: the spec scenario, quantity 100 at
average cost 100, selling 40 at 120. -/
theorem partial_sell_frame_witness :
    (0 : ℤ) < 40 ∧
    ((update_position_on_sell posHundredAt100 40 120 1).average_cost
        = posHundredAt100.average_cost ∧
     (update_position_on_sell posHundredAt100 40 120 1).realized_pnl
        = posHundredAt100.realized_pnl
          + ((120 : ℚ) - posHundredAt100.average_cost) * ((40 : ℤ) : ℚ) ∧
     (update_position_on_sell posHundredAt100 40 120 1).quantity
        = posHundredAt100.quantity - 40 ∧
     (update_position_on_sell posHundredAt100 40 120 1).is_open = true) :=
  ⟨by decide, partial_sell_frame posHundredAt100 40 120 1 (by decide) (by decide) rfl⟩

/-- C2 counterexample: selling 5 from a 3-share position is not aborted and
does not leave the position unchanged — the quantity is driven to -2. -/
theorem sell_overdraw_cex :
    (update_position_on_sell posThreeShares 5 10 0).quantity = -2 ∧
    update_position_on_sell posThreeShares 5 10 0 ≠ posThreeShares := by
  decide

/-- C2 amended: _update_position_on_sell performs no defensive quantity
check; a sell whose quantity exceeds the position's quantity simply drives
quantity negative while still accruing realized P&L on the full quantity. -/
theorem sell_overdraw_goes_negative (p : Position) (qty : ℤ) (price : ℚ)
    (now : ℕ) (h : p.quantity < qty) :
    (update_position_on_sell p qty price now).quantity = p.quantity - qty ∧
    (update_position_on_sell p qty price now).quantity < 0 ∧
    (update_position_on_sell p qty price now).realized_pnl
      = p.realized_pnl + (price - p.average_cost) * (qty : ℚ) := by
  have hne : p.quantity - qty ≠ 0 := by omega
  have hq : (update_position_on_sell p qty price now).quantity = p.quantity - qty := by
    simp [update_position_on_sell, hne]
  refine ⟨hq, ?_, ?_⟩
  · rw [hq]; omega
  · simp [update_position_on_sell, hne]

/-- Witness for sell_overdraw_goes_negative: selling 5 out of 3 shares. -/
theorem sell_overdraw_goes_negative_witness :
    posThreeShares.quantity < 5 ∧
    ((update_position_on_sell posThreeShares 5 10 0).quantity
        = posThreeShares.quantity - 5 ∧
     (update_position_on_sell posThreeShares 5 10 0).quantity < 0 ∧
     (update_position_on_sell posThreeShares 5 10 0).realized_pnl
        = posThreeShares.realized_pnl
          + ((10 : ℚ) - posThreeShares.average_cost) * ((5 : ℤ) : ℚ)) :=
  ⟨by decide, sell_overdraw_goes_negative posThreeShares 5 10 0 (by decide)⟩

/-! Risk-manager theorems. -/

/-- C1 counterexample: with the circuit breaker enabled and the daily loss
beyond the limit, the Sell request is rejected with the circuit-breaker
reason exactly like the otherwise-identical Buy — sells do not pass the
check. -/
theorem circuit_breaker_sell_rejected_cex :
    validate_trade ctxBreakerTripped OrderSide.sell 10 50 none none
      = Except.error RiskError.circuitBreaker ∧
    validate_trade ctxBreakerTripped OrderSide.buy 10 50 none none
      = Except.error RiskError.circuitBreaker := by
  decide

/-- C1 amended: when circuit_breaker_enabled is true and today's
daily_pnl_pct < −daily_loss_limit_pct, validate_trade rejects every request,
Buy and Sell alike, with the circuit-breaker reason: check_circuit_breaker
never consults the order side. -/
theorem circuit_breaker_blocks_all_sides (ctx : RiskContext) (side : OrderSide)
    (quantity : ℤ) (price : ℚ) (stop_loss_price take_profit_price : Option ℚ)
    (hen : ctx.settings.circuit_breaker_enabled = true)
    (hpct : (get_daily_pnl ctx).2 < -ctx.settings.daily_loss_limit_pct) :
    validate_trade ctx side quantity price stop_loss_price take_profit_price
      = Except.error RiskError.circuitBreaker := by
  have hcb : check_circuit_breaker ctx = Except.error RiskError.circuitBreaker := by
    unfold check_circuit_breaker
    rw [if_neg (by simp [hen]), if_pos hpct]
  unfold validate_trade
  rw [hcb]

/-- Witness for circuit_breaker_blocks_all_sides: a sell of 7 shares at 30
against the tripped-breaker context. -/
theorem circuit_breaker_blocks_all_sides_witness :
    ctxBreakerTripped.settings.circuit_breaker_enabled = true ∧
    validate_trade ctxBreakerTripped OrderSide.sell 7 30 none none
      = Except.error RiskError.circuitBreaker :=
  ⟨rfl, circuit_breaker_blocks_all_sides ctxBreakerTripped OrderSide.sell 7 30
    none none rfl (by decide)⟩

/-- C8 counterexample: for an account with no portfolio snapshot whose
position limit is already reached, a Buy is rejected with the max-positions
reason, not the portfolio-value-is-zero reason. -/
theorem no_snapshot_maxpos_cex :
    ctxNoSnapshotFull.latest_snapshot = none ∧
    ctxNoSnapshotFull.today_snapshot = none ∧
    validate_trade ctxNoSnapshotFull OrderSide.buy 10 50 none none
      = Except.error RiskError.maxPositions ∧
    RiskError.maxPositions ≠ RiskError.portfolioValueZero := by
  decide

/-- C8 amended: with no snapshot the portfolio value, cash balance and daily
P&L read as zero-valued defaults; with today's snapshot missing the circuit
breaker passes exactly when it is disabled or daily_loss_limit_pct is
nonnegative; and a Buy that passes the circuit-breaker and max-positions
checks is then rejected with the portfolio-value-is-zero reason. -/
theorem no_snapshot_defaults (ctx : RiskContext) (quantity : ℤ) (price : ℚ)
    (stop_loss_price take_profit_price : Option ℚ) :
    (ctx.latest_snapshot = none →
      get_portfolio_value ctx = 0 ∧ get_cash_balance ctx = 0) ∧
    (ctx.today_snapshot = none → get_daily_pnl ctx = (0, 0)) ∧
    (ctx.today_snapshot = none →
      (check_circuit_breaker ctx = Except.ok () ↔
        ctx.settings.circuit_breaker_enabled = false ∨
        0 ≤ ctx.settings.daily_loss_limit_pct)) ∧
    (ctx.latest_snapshot = none → ctx.today_snapshot = none →
      0 ≤ ctx.settings.daily_loss_limit_pct →
      ctx.open_positions_count < ctx.settings.max_open_positions →
      validate_trade ctx OrderSide.buy quantity price stop_loss_price
          take_profit_price
        = Except.error RiskError.portfolioValueZero) := by
  refine ⟨?_, ?_, ?_, ?_⟩
  · intro h
    simp [get_portfolio_value, get_cash_balance, h]
  · intro h
    simp [get_daily_pnl, h]
  · intro h
    unfold check_circuit_breaker
    rw [show (get_daily_pnl ctx).2 = 0 by simp [get_daily_pnl, h]]
    split_ifs with h1 h2
    · simp [h1]
    · constructor
      · intro hcon
        exact absurd hcon (by simp)
      · intro hd
        rcases hd with hd | hd
        · exact absurd hd h1
        · exact absurd h2 (by simp [not_lt]; linarith)
    · constructor
      · intro _
        right
        rw [not_lt] at h2
        linarith
      · intro _
        rfl
  · intro h1 h2 hlim hcount
    have hcb : check_circuit_breaker ctx = Except.ok () := by
      unfold check_circuit_breaker
      rw [show (get_daily_pnl ctx).2 = 0 by simp [get_daily_pnl, h2]]
      have hnl : ¬ ((0 : ℚ) < -ctx.settings.daily_loss_limit_pct) := by
        rw [not_lt]
        linarith
      by_cases ha : ctx.settings.circuit_breaker_enabled = false
      · rw [if_pos ha]
      · rw [if_neg ha, if_neg hnl]
    have hmp : check_max_positions ctx OrderSide.buy = Except.ok () := by
      unfold check_max_positions
      rw [if_neg (by omega)]
    have hps : validate_position_size ctx quantity price OrderSide.buy
        = Except.error RiskError.portfolioValueZero := by
      unfold validate_position_size
      simp [get_portfolio_value, h1]
    unfold validate_trade
    rw [hcb, hmp, hps]

/-- Witness for no_snapshot_defaults: the snapshot-free context with room for
more positions, buying 10 shares at 50. -/
theorem no_snapshot_defaults_witness :
    (get_portfolio_value ctxNoSnapshotRoom = 0 ∧
     get_cash_balance ctxNoSnapshotRoom = 0) ∧
    get_daily_pnl ctxNoSnapshotRoom = (0, 0) ∧
    (check_circuit_breaker ctxNoSnapshotRoom = Except.ok () ↔
      ctxNoSnapshotRoom.settings.circuit_breaker_enabled = false ∨
      0 ≤ ctxNoSnapshotRoom.settings.daily_loss_limit_pct) ∧
    validate_trade ctxNoSnapshotRoom OrderSide.buy 10 50 none none
      = Except.error RiskError.portfolioValueZero :=
  ⟨(no_snapshot_defaults ctxNoSnapshotRoom 10 50 none none).1 rfl,
   (no_snapshot_defaults ctxNoSnapshotRoom 10 50 none none).2.1 rfl,
   (no_snapshot_defaults ctxNoSnapshotRoom 10 50 none none).2.2.1 rfl,
   (no_snapshot_defaults ctxNoSnapshotRoom 10 50 none none).2.2.2 rfl rfl
     (by decide) (by decide)⟩

/-- C9: when require_stop_loss is enabled, validate_trade never accepts a
request without a stop_loss_price, whatever its side; and every sell request
synthesized by monitor_stop_losses is a Market Sell carrying no
stop_loss_price — so those requests are rejected by risk validation. -/
theorem require_stop_loss_rejects_all_sides :
    (∀ (ctx : RiskContext) (side : OrderSide) (quantity : ℤ) (price : ℚ)
       (take_profit_price : Option ℚ),
       ctx.settings.require_stop_loss = true →
       riskOk (validate_trade ctx side quantity price none take_profit_price)
         = false) ∧
    (∀ (entries : List MonitorEntry) (req : SellOrderRequest),
       req ∈ monitor_stop_losses entries →
       req.stop_loss_price = none ∧ req.side = OrderSide.sell ∧
       req.order_type = OrderType.market) := by
  constructor
  · intro ctx side quantity price take_profit_price hreq
    have hsl : validate_stop_loss ctx.settings none price
        = Except.error RiskError.stopLossRequired := by
      simp [validate_stop_loss, hreq]
    unfold validate_trade
    cases h1 : check_circuit_breaker ctx with
    | error e => simp [riskOk]
    | ok u =>
      cases h2 : check_max_positions ctx side with
      | error e => simp [riskOk]
      | ok u2 =>
        cases h3 : validate_position_size ctx quantity price side with
        | error e => simp [riskOk]
        | ok u3 =>
          cases h4 : validate_cash_available ctx quantity price side with
          | error e => simp [riskOk]
          | ok u4 =>
            rw [hsl]
            simp [riskOk]
  · intro entries req hmem
    unfold monitor_stop_losses at hmem
    rcases List.mem_filterMap.mp hmem with ⟨e, _, hck⟩
    unfold monitor_check at hck
    split_ifs at hck
    rcases Option.some.inj hck with rfl
    exact ⟨rfl, rfl, rfl⟩

/-- Witness for require_stop_loss_rejects_all_sides: a healthy account with
require_stop_loss set rejects a stop-less sell; the request the monitor
synthesizes for a tripped stop carries no stop_loss_price. -/
theorem require_stop_loss_rejects_all_sides_witness :
    riskOk (validate_trade ctxRequireStop OrderSide.sell 5 10 none none)
      = false ∧
    ((monitor_sell_request posWithStop).stop_loss_price = none ∧
     (monitor_sell_request posWithStop).side = OrderSide.sell ∧
     (monitor_sell_request posWithStop).order_type = OrderType.market) :=
  ⟨require_stop_loss_rejects_all_sides.1 ctxRequireStop OrderSide.sell 5 10
      none rfl,
   require_stop_loss_rejects_all_sides.2 [entryStopTripped]
      (monitor_sell_request posWithStop) (by decide)⟩

/-! Executor and position-monitor theorems. -/

/-- C4 counterexample: an open position carrying only a take_profit_price,
with the live price above the target, is never scanned by
monitor_stop_losses — no sell request is synthesized. -/
theorem monitor_skips_take_profit_only_cex :
    posTakeProfitOnly.is_open = true ∧
    posTakeProfitOnly.stop_loss_price = none ∧
    posTakeProfitOnly.take_profit_price = some 50 ∧
    entryTakeProfitOnly.current_price = some 60 ∧
    (50 : ℚ) ≤ 60 ∧
    monitor_stop_losses [entryTakeProfitOnly] = [] := by
  decide

/-- C4 amended: a monitor pass scans only open positions of active users that
carry a stop_loss_price; a position with no stop_loss_price — even one with
a take_profit_price — produces no order. For a scanned position it submits
the Market-type Sell request for the full open quantity when current_price ≤
stop_loss_price, or when the stop does not fire, the take_profit_price is
truthy and current_price ≥ take_profit_price. -/
theorem monitor_scan_behavior (e : MonitorEntry) :
    ((monitor_sell_request e.position).order_type = OrderType.market ∧
     (monitor_sell_request e.position).side = OrderSide.sell ∧
     (monitor_sell_request e.position).quantity = e.position.quantity) ∧
    (e.position.stop_loss_price = none → monitor_stop_losses [e] = []) ∧
    (∀ sl price : ℚ, e.position.is_open = true → e.user_is_active = true →
      e.position.stop_loss_price = some sl → e.current_price = some price →
      price ≠ 0 → price ≤ sl →
      monitor_stop_losses [e] = [monitor_sell_request e.position]) ∧
    (∀ sl tp price : ℚ, e.position.is_open = true → e.user_is_active = true →
      e.position.stop_loss_price = some sl →
      e.position.take_profit_price = some tp →
      e.current_price = some price → price ≠ 0 → sl < price → tp ≠ 0 →
      tp ≤ price →
      monitor_stop_losses [e] = [monitor_sell_request e.position]) := by
  refine ⟨⟨rfl, rfl, rfl⟩, ?_, ?_, ?_⟩
  · intro h
    simp [monitor_stop_losses, monitor_scan_filter, h]
  · intro sl price ho ha hsl hcp hpz hle
    have hf : monitor_scan_filter e = true := by
      simp [monitor_scan_filter, ho, ha, hsl]
    have ht : monitor_triggered e = true := by
      simp [monitor_triggered, hcp, hsl, hpz, hle]
    simp [monitor_stop_losses, hf, monitor_check, ht]
  · intro sl tp price ho ha hsl htp hcp hpz hlt htpz htple
    have hf : monitor_scan_filter e = true := by
      simp [monitor_scan_filter, ho, ha, hsl]
    have hnle : ¬ (price ≤ sl) := not_le.mpr hlt
    have ht : monitor_triggered e = true := by
      simp [monitor_triggered, hcp, hsl, htp, hpz, hnle, htpz, htple]
    simp [monitor_stop_losses, hf, monitor_check, ht]

/-- Witness for monitor_scan_behavior: the stop at 45 fires at price 40 and
produces the full-quantity market sell. -/
theorem monitor_scan_behavior_witness :
    monitor_stop_losses [entryStopTripped]
      = [monitor_sell_request posWithStop] :=
  (monitor_scan_behavior entryStopTripped).2.2.1 45 40 rfl rfl rfl rfl
    (by decide) (by decide)

/-- C6 counterexample: an ambiguous transport failure of the broker call
moves the order to REJECTED rather than leaving it Pending or Submitted. -/
theorem live_ambiguous_failure_cex :
    orderPendingLive.status = OrderStatus.pending ∧
    (execute_live_trade orderPendingLive LiveOutcome.transportFailure 0).1.status
      = OrderStatus.rejected ∧
    OrderStatus.rejected ≠ OrderStatus.pending ∧
    OrderStatus.rejected ≠ OrderStatus.submitted := by
  decide

/-- C6 amended: execute_live_trade marks the order SUBMITTED (storing the
broker id) exactly when the broker accepts; on any raised failure — explicit
broker rejection and ambiguous transport failure alike — it sets status
REJECTED and re-raises the error. -/
theorem live_trade_status_transitions (order : TradeOrder) (now bid : ℕ) :
    (execute_live_trade order (LiveOutcome.accepted bid) now).1.status
      = OrderStatus.submitted ∧
    (execute_live_trade order (LiveOutcome.accepted bid) now).1.broker_order_id
      = some bid ∧
    (execute_live_trade order (LiveOutcome.accepted bid) now).2 = false ∧
    (execute_live_trade order LiveOutcome.explicitReject now).1.status
      = OrderStatus.rejected ∧
    (execute_live_trade order LiveOutcome.explicitReject now).2 = true ∧
    (execute_live_trade order LiveOutcome.transportFailure now).1.status
      = OrderStatus.rejected ∧
    (execute_live_trade order LiveOutcome.transportFailure now).2 = true :=
  ⟨rfl, rfl, rfl, rfl, rfl, rfl, rfl⟩

/-- C7: execute_paper_trade takes a pending order to FILLED in one step,
recording exactly one execution with zero commission at the order quantity
and the resolved price, and the fill-reconciliation invariant holds:
filled_quantity equals the execution-quantity sum and average_fill_price
equals the quantity-weighted execution price. -/
theorem paper_trade_fill_reconciliation (order : TradeOrder)
    (position : Position) (price : ℚ) (now : ℕ)
    (hst : order.status = OrderStatus.pending) (hq : 0 < order.quantity) :
    (execute_paper_trade order position price now).executions
      = [{ order_id := order.id, quantity := order.quantity, price := price,
           commission := 0, executed_at := now }] ∧
    (execute_paper_trade order position price now).order.status
      = OrderStatus.filled ∧
    (execute_paper_trade order position price now).order.filled_quantity
      = exec_qty_sum (execute_paper_trade order position price now).executions ∧
    (execute_paper_trade order position price now).order.average_fill_price
      = some (exec_cost_sum (execute_paper_trade order position price now).executions
          / ((exec_qty_sum (execute_paper_trade order position price now).executions : ℤ) : ℚ)) := by
  have hne : ((order.quantity : ℤ) : ℚ) ≠ 0 := by exact_mod_cast hq.ne'
  refine ⟨rfl, rfl, ?_, ?_⟩
  · show order.quantity = exec_qty_sum [_]
    simp [exec_qty_sum]
  · have hex : (execute_paper_trade order position price now).executions
        = [{ order_id := order.id, quantity := order.quantity, price := price,
             commission := 0, executed_at := now }] := rfl
    rw [hex]
    show some price = some (exec_cost_sum _ / _)
    simp only [exec_qty_sum, exec_cost_sum, List.foldr_cons, List.foldr_nil,
      add_zero, Option.some.injEq]
    rw [mul_comm, mul_div_assoc, div_self hne, mul_one]

/-- Witness for paper_trade_fill_reconciliation: filling the pending paper
order for 100 shares at 101. -/
theorem paper_trade_fill_reconciliation_witness :
    orderPendingPaper.status = OrderStatus.pending ∧
    ((execute_paper_trade orderPendingPaper posFlat 101 5).executions
      = [{ order_id := orderPendingPaper.id,
           quantity := orderPendingPaper.quantity, price := 101,
           commission := 0, executed_at := 5 }] ∧
     (execute_paper_trade orderPendingPaper posFlat 101 5).order.status
      = OrderStatus.filled ∧
     (execute_paper_trade orderPendingPaper posFlat 101 5).order.filled_quantity
      = exec_qty_sum (execute_paper_trade orderPendingPaper posFlat 101 5).executions ∧
     (execute_paper_trade orderPendingPaper posFlat 101 5).order.average_fill_price
      = some (exec_cost_sum (execute_paper_trade orderPendingPaper posFlat 101 5).executions
          / ((exec_qty_sum (execute_paper_trade orderPendingPaper posFlat 101 5).executions : ℤ) : ℚ))) :=
  ⟨rfl, paper_trade_fill_reconciliation orderPendingPaper posFlat 101 5 rfl
    (by decide)⟩

/-- C10 counterexample: cancellation does not succeed even for a Pending
order — with the network healthy it still returns False — and cancelling a
FILLED order yields exactly the same bare False, so no distinct
order-not-cancellable signal distinguishes the non-cancellable statuses. -/
theorem cancel_order_never_succeeds_cex :
    orderPendingLive.status = OrderStatus.pending ∧
    (cancel_order orderPendingLive true).1 = false ∧
    orderFilled.status = OrderStatus.filled ∧
    (cancel_order orderFilled true).1 = false ∧
    (cancel_order orderFilled true).1 = (cancel_order orderPendingLive true).1 := by
  decide

/-- C10 amended: cancel_order never succeeds for any order and any network
state: _make_request raises ValueError on the unsupported DELETE method
before any broker request is sent, so cancel_order always returns False —
independent of the local order status, which it never reads or mutates.
No order-not-cancellable signal exists. -/
theorem cancel_order_always_fails (order : TradeOrder) (netOk : Bool) :
    make_request HttpMethod.delete netOk
      = Except.error ClientError.unsupportedMethod ∧
    (cancel_order order netOk).1 = false ∧
    (cancel_order order netOk).2 = order := by
  cases netOk <;> exact ⟨rfl, rfl, rfl⟩

end TsxTrader
